import Mathlib

/-!
Verification of the per-guild recording-session lifecycle of the
sbi-discord-bot repository (cog `Recording` in src/steve/cogs/recording.py,
cog `RecordingAlternative` in src/cogs/recording_alternative.py, and the
`Meeting` data model in src/steve/db/models/meeting.py).

The lifecycle manager is single-threaded asyncio code.  We embed it as a
transition system over an explicit state record for one tenant (guild):
each modelled event executes the code of one trigger call-site, with the
code between asyncio suspension points coalesced into atomic steps wherever
the guards read and written by concurrent triggers are not separated by an
await in the source (they are separated in `join`, which is modelled at a
finer granularity for the start-race claims).  External capabilities are
modelled by their observable contracts:

* pycord voice client: `stop_recording` flips a recording flag and, when it
  was set, schedules the finished callback exactly once; calling it while
  the flag is clear raises (modelled as the caller's except-path);
  `disconnect` is invoked only under the source's `is_connected()` guard.
* the Appwrite helpers in src/steve/db/meetings.py `create_meeting`,
  `delete_meeting`, `create_recording`, `update_meeting` never raise: each
  catches internally and returns None/False on failure, so a store failure
  does not divert the cog's control flow (their results are ignored or
  appended as-is at the call sites in recording.py).
* `start_transcription` (src/steve/ai/transcription.py) never raises and
  returns a Bool.
* Discord sends/edits (`channel.send`, `message.edit`, `ctx.respond`) can
  raise; the `Ext` record says which of them succeed in a given run.
-/

namespace Steve

/-- Which externally-fallible Discord calls succeed during one run of
`recording_finished_callback`.  Only the calls that can actually raise at
their call site (Discord message sends/edits) and the one store call whose
result steers control flow (`start_transcription`, line 251) are listed;
`delete_meeting` / `update_meeting` / `create_recording` return error
values that recording.py ignores, so their failure is unobservable here. -/
structure Ext where
  /-- channel.send of the no-audio embed, recording.py line 173 -/
  sendNoAudioOk : Bool
  /-- channel.send of the Processing embed, line 218 -/
  sendProcessingOk : Bool
  /-- message.edit of the result embed, line 249 -/
  editResultOk : Bool
  /-- result of start_transcription, line 251 (returns Bool, never raises) -/
  transcribeOk : Bool
  /-- channel.send of the transcription-success embed, line 253 -/
  sendSuccessOk : Bool
  /-- channel.send of the no-valid-files embed, line 270 -/
  sendNoValidOk : Bool
  /-- channel.send of the error embed in the except block, line 282 -/
  sendErrorOk : Bool
  deriving DecidableEq, Repr

/-- All Discord calls succeed. -/
def extAllOk : Ext :=
  ⟨true, true, true, true, true, true, true⟩

/-- Observable state of the `Recording` cog for a single tenant (guild),
together with event counters used to state exactly-once properties.
`inConnections` is membership of the guild in `self.connections`,
`inTasks` membership in `self.recording_tasks`, `connected` is
`vc.is_connected()`, `recording` the pycord voice-client recording flag,
`callbackScheduled` that `recording_finished_callback` has been scheduled
by a successful `stop_recording` and has not yet run.  `meetingPresent`
records whether `create_meeting` at start returned a Meeting (it returns
None on store failure, recording.py lines 86-92). -/
structure St where
  inConnections : Bool
  inTasks : Bool
  connected : Bool
  recording : Bool
  callbackScheduled : Bool
  meetingPresent : Bool
  /-- number of executions of the finalize body of the callback, i.e. the
  audio-drain/persist/notify code past the connection-info guard
  (recording.py lines 164-271) -/
  finalizeRuns : Nat
  /-- connection-release events: guarded `vc.disconnect()` calls plus an
  external drop of the live connection (each only while connected) -/
  releases : Nat
  /-- `vc.disconnect()` invocations by `_cleanup_recording` (line 391) -/
  disconnectCalls : Nat
  /-- successful `del self.connections[guild_id]` (line 394) -/
  removals : Nat
  /-- timeout-task cancellations (lines 156 and 382) -/
  taskCancels : Nat
  /-- `create_recording` (blob store) invocations (line 197) -/
  blobCalls : Nat
  /-- `update_meeting` invocations (line 230) -/
  updateCalls : Nat
  /-- `delete_meeting` invocations (line 175) -/
  deleteCalls : Nat
  /-- `start_transcription` invocations (line 251) -/
  transcribeCalls : Nat
  sentNoAudioMsg : Bool
  sentNoValidMsg : Bool
  sentSuccessMsg : Bool
  sentErrorMsg : Bool
  deriving DecidableEq, Repr

/-- State right after a successful `/join`: registered, timer armed,
connected, recording, meeting record created. -/
def activeSt : St :=
  { inConnections := true, inTasks := true, connected := true,
    recording := true, callbackScheduled := false, meetingPresent := true,
    finalizeRuns := 0, releases := 0, disconnectCalls := 0, removals := 0,
    taskCancels := 0, blobCalls := 0, updateCalls := 0, deleteCalls := 0,
    transcribeCalls := 0, sentNoAudioMsg := false, sentNoValidMsg := false,
    sentSuccessMsg := false, sentErrorMsg := false }

/-- Lines 154-157 / 380-383: `if guild_id in self.recording_tasks:
self.recording_tasks[guild_id].cancel(); del self.recording_tasks[guild_id]`.
asyncio's `Task.cancel` never raises and is a no-op on a finished task. -/
def cancelTask (s : St) : St :=
  if s.inTasks then
    { s with inTasks := false, taskCancels := s.taskCancels + 1 }
  else s

/-- `_cleanup_recording`, recording.py lines 377-397: cancel the timeout
task, then, if the guild is registered, disconnect the voice client (only
when `vc.is_connected()`) and delete the registry entry. -/
def cleanup (s : St) : St :=
  let s1 := cancelTask s
  if s1.inConnections then
    let s2 :=
      if s1.connected then
        { s1 with connected := false,
                  disconnectCalls := s1.disconnectCalls + 1,
                  releases := s1.releases + 1 }
      else s1
    { s2 with inConnections := false, removals := s2.removals + 1 }
  else s1

/-- The pycord voice-client `stop_recording` contract: when the recording
flag is set, clear it and schedule `recording_finished_callback` once;
when it is clear, the call raises RecordingException (the effect of that
raise is modelled at each call site). -/
def vcStopRecording (s : St) : St :=
  { s with recording := false, callbackScheduled := true }

/-- The `/stop` slash command, recording.py lines 289-313: respond
Not Recording when the guild is not registered; otherwise
`_stop_recording` (lines 315-322) updates the status embed (internal
try/except, no lifecycle effect) and calls `vc.stop_recording()`; if that
raises because the recording flag is already clear, the except branch of
`stop` forces `_cleanup_recording` (line 313). -/
def manualStop (s : St) : St :=
  if s.inConnections then
    if s.recording then vcStopRecording s
    else cleanup s
  else s

/-- The `_auto_stop_recording` body after the sleep, lines 346-375; it runs
only if the task was not cancelled first (`inTasks`).  If the guild is
registered it calls `vc.stop_recording()`; a raise (flag already clear) is
swallowed by the except at line 374 with no cleanup.  The timeout-message
send failure is caught internally (lines 360-370). -/
def timeoutFire (s : St) : St :=
  if s.inTasks then
    if s.inConnections then
      if s.recording then vcStopRecording s else s
    else s
  else s

/-- The platform drops (or completes dropping) the bot's voice connection:
`vc.is_connected()` becomes false.  Counted as the connection-release event
when the connection was still live. -/
def dropConnection (s : St) : St :=
  if s.connected then
    { s with connected := false, releases := s.releases + 1 }
  else s

/-- `on_voice_state_update`, recording.py lines 399-409: fires when the bot
left a voice channel (externally or through its own disconnect); for the
session whose voice client was in that channel it calls
`_cleanup_recording` directly.  The physical drop precedes the listener. -/
def extDisconnect (s : St) : St :=
  let s1 := dropConnection s
  if s1.inConnections then cleanup s1 else s1

/-- The per-user loop of `recording_finished_callback`, lines 184-214:
for each audio_data entry with a non-empty buffer the code calls
`create_recording` and appends the returned file id and the user id.
`create_recording` returns None on storage failure without raising (its
body is wrapped in try/except in db/meetings.py), and recording.py appends
the result unconditionally, so the files/recorded_users lists gain one
entry per non-empty buffer regardless of blob-store success.  Returns the
number of such entries and the recorded user ids, in sink order. -/
def processUsers : List (Nat × Nat) → Nat × List Nat
  | [] => (0, [])
  | (u, sz) :: rest =>
    let r := processUsers rest
    if 0 < sz then (r.1 + 1, u :: r.2) else r

/-- The except block at lines 273-284 followed by the finally block: try to
send the error embed (its own failure is swallowed), then always
`_cleanup_recording`. -/
def exceptPath (x : Ext) (s : St) : St :=
  cleanup (if x.sendErrorOk then { s with sentErrorMsg := true } else s)

/-- State after the no-audio embed was sent (recording.py line 173). -/
def noAudioSt (s : St) : St := { s with sentNoAudioMsg := true }

/-- State after the per-user loop (lines 184-214): one `create_recording`
call per non-empty buffer. -/
def blobSt (sink : List (Nat × Nat)) (s : St) : St :=
  { s with blobCalls := s.blobCalls + (processUsers sink).1 }

/-- State after `update_meeting` (line 230). -/
def updSt (sink : List (Nat × Nat)) (s : St) : St :=
  { blobSt sink s with updateCalls := (blobSt sink s).updateCalls + 1 }

/-- State after the in-branch `_cleanup_recording` (line 250) and the
`start_transcription` call (line 251). -/
def tcSt (sink : List (Nat × Nat)) (s : St) : St :=
  { cleanup (updSt sink s) with
    transcribeCalls := (cleanup (updSt sink s)).transcribeCalls + 1 }

/-- The finalize body of `recording_finished_callback` (recording.py lines
164-271), i.e. the code past the connection-info guard: the no-audio branch
(lines 167-178) sends the no-audio embed and calls `delete_meeting`
(accessing `meeting.id` raises when `create_meeting` returned None at
start); otherwise the buffers are processed, followed by either the
results branch (lines 217-261: Processing send, meeting mutation +
`update_meeting`, result edit, `_cleanup_recording`, `start_transcription`,
optional success send) or the no-valid-files branch (lines 263-271).
Every raise lands in the except block (lines 273-284) and the finally
block (285-287) always runs `_cleanup_recording`. -/
def finalizeBody (sink : List (Nat × Nat)) (x : Ext) (s : St) : St :=
  if sink = [] then
    if x.sendNoAudioOk = false then exceptPath x s
    else if s.meetingPresent = false then exceptPath x (noAudioSt s)
    else
      cleanup { noAudioSt s with
        deleteCalls := (noAudioSt s).deleteCalls + 1 }
  else
    if 0 < (processUsers sink).1 then
      if x.sendProcessingOk = false then exceptPath x (blobSt sink s)
      else if s.meetingPresent = false then exceptPath x (blobSt sink s)
      else if x.editResultOk = false then exceptPath x (updSt sink s)
      else if x.transcribeOk then
        if x.sendSuccessOk = false then exceptPath x (tcSt sink s)
        else cleanup { tcSt sink s with sentSuccessMsg := true }
      else cleanup (tcSt sink s)
    else
      if x.sendNoValidOk = false then exceptPath x (blobSt sink s)
      else cleanup { blobSt sink s with sentNoValidMsg := true }

/-- `recording_finished_callback`, recording.py lines 149-287, for a sink
whose audio_data maps user ids to buffer byte sizes.  The callback runs
only if scheduled by a successful `stop_recording`.  It cancels the
timeout task, early-returns (plus finally-cleanup) when the guild is no
longer registered, and otherwise executes the finalize body. -/
def runCallback (sink : List (Nat × Nat)) (x : Ext) (s : St) : St :=
  if s.callbackScheduled = false then s
  else
    let s := { s with callbackScheduled := false }
    let s := cancelTask s
    if s.inConnections = false then cleanup s
    else finalizeBody sink x { s with finalizeRuns := s.finalizeRuns + 1 }

/-- The four concurrent call sites that can act on one tenant's session:
the `/stop` command handler, the timeout task's fire, the voice-state
listener after a connection drop, and the scheduled finished callback. -/
inductive Ev where
  | manual
  | timeout
  | extDisc
  | callback
  deriving DecidableEq, Repr

/-- Execute one event. -/
def step (sink : List (Nat × Nat)) (x : Ext) : Ev → St → St
  | Ev.manual, s => manualStop s
  | Ev.timeout, s => timeoutFire s
  | Ev.extDisc, s => extDisconnect s
  | Ev.callback, s => runCallback sink x s

/-- Execute a trace of events in order. -/
def runTrace (sink : List (Nat × Nat)) (x : Ext) (t : List Ev) (s : St) : St :=
  t.foldl (fun s e => step sink x e s) s

/-- Drain the event loop: if the finished callback is still pending, run
it (pycord always eventually runs a scheduled callback). -/
def drainCb (sink : List (Nat × Nat)) (x : Ext) (s : St) : St :=
  if s.callbackScheduled then runCallback sink x s else s

/-- The first step of the `/join` command that can fail, or `ok` when the
whole start path succeeds.  `connectTimeout` is `asyncio.TimeoutError`
from `voice.channel.connect` (line 74, handled at 129), `connectFail` any
other connect error, `statusSendFail` a raise from `ctx.followup.send` of
the status embed (line 82, before the registry insert), `startRecFail` a
raise from `vc.start_recording` (line 111, after the registry insert).
`create_meeting` (line 86) is absent: it returns None on failure without
raising, which is modelled by the `meetingOk` argument of `join`. -/
inductive JFault where
  | ok
  | connectTimeout
  | connectFail
  | statusSendFail
  | startRecFail
  deriving DecidableEq, Repr

/-- Outcome of a `/join` call as seen by the user. -/
inductive JoinRes where
  | notInVoice
  | alreadyActive
  | started
  | failed
  deriving DecidableEq, Repr

/-- The `/join` slash command, recording.py lines 48-147, for one tenant.
Checks: caller in a voice channel (line 51), guild not already in
`self.connections` (line 60).  Then connect (sets the live connection),
send the status message, `create_meeting` (non-fatal: `meetingPresent`
records its outcome), insert into `self.connections` (line 95), play the
start sound (internal try/except), `vc.start_recording` (line 111), and
arm the timeout task (line 120).  On `asyncio.TimeoutError` only an embed
is sent (no cleanup, lines 129-136); on any other exception the except
branch first awaits `ctx.followup.send` of the error embed (line 145) and
only then calls `_cleanup_recording` (line 147) — `errSendOk` says whether
that send succeeds; when it raises, the exception propagates and the
cleanup at line 147 never runs. -/
def join (hasVoice : Bool) (meetingOk : Bool) (f : JFault) (errSendOk : Bool)
    (s : St) : St × JoinRes :=
  if hasVoice = false then (s, JoinRes.notInVoice)
  else if s.inConnections then (s, JoinRes.alreadyActive)
  else
    match f with
    | JFault.ok =>
      ({ s with connected := true, meetingPresent := meetingOk,
                inConnections := true, recording := true, inTasks := true },
       JoinRes.started)
    | JFault.connectTimeout => (s, JoinRes.failed)
    | JFault.connectFail =>
      (if errSendOk then cleanup s else s, JoinRes.failed)
    | JFault.statusSendFail =>
      -- connect already succeeded, so the connection is live, but the
      -- guild was never inserted: `_cleanup_recording` (when reached)
      -- finds no entry and neither disconnects nor deletes.
      (if errSendOk then cleanup { s with connected := true }
       else { s with connected := true }, JoinRes.failed)
    | JFault.startRecFail =>
      -- connect, status send, create_meeting and the registry insert all
      -- happened; start_recording raises; the except branch cleans up
      -- only if its own error-embed send at line 145 does not raise.
      (if errSendOk then
        cleanup { s with connected := true, meetingPresent := meetingOk,
                         inConnections := true }
       else { s with connected := true, meetingPresent := meetingOk,
                     inConnections := true },
       JoinRes.failed)

/-!
Model of two overlapping `/join` calls for the same tenant.  In the source
the cog's membership check (line 60) and its registry insert (line 95) are
separated by several awaits (`ctx.defer`, `voice.channel.connect`,
`ctx.followup.send`, `create_meeting`), but `voice.channel.connect` itself
holds a second, synchronous guard: py-cord's `Connectable.connect` checks
the connection state's voice-client map for the guild and raises
`ClientException` when an entry exists, and the winning call registers its
voice client in that map synchronously (no await between the check and the
add) before awaiting the handshake.  A losing overlapped call therefore
lands in the generic except branch (recording.py lines 137-147): it awaits
the error-embed send (line 145) and, if that send does not itself raise,
runs `_cleanup_recording` (line 147) — which, when the winner has already
inserted at line 95, disconnects the winner's voice client and deletes the
winner's registry entry.

Each `/join` task is modelled with four segments, split at the awaits:
the membership check; the synchronous connect guard (check-and-add of the
voice-client map, or raise); the remainder of the winning path (handshake,
status send, create_meeting, the line-95 insert, start_recording, timer);
and the except path (error send then conditional cleanup).  A schedule
interleaves the two tasks' segments; each schedule entry carries the task
choice and whether an error-embed send issued at that step succeeds.
-/

/-- Program counter of one `/join` task in the start race. -/
inductive TPc where
  /-- before the line-60 membership check -/
  | start
  /-- check passed; `ctx.defer` awaited; connect not yet attempted -/
  | passedCheck
  /-- the synchronous connect guard passed and this task's voice client is
  registered in the connection state's map; handshake and the rest of the
  start path still pending -/
  | connected
  /-- `connect` raised `ClientException`; the except branch (error send,
  then cleanup) still pending -/
  | excPending
  | done
  deriving DecidableEq, Fintype, Repr

/-- Outcome of one `/join` task. -/
inductive TRes where
  | pending
  /-- recording started (the line-95 insert happened) -/
  | started
  /-- generic Recording Failed (except branch) -/
  | failed
  /-- refused at the line-60 check with Already Recording -/
  | alreadyActive
  deriving DecidableEq, Fintype, Repr

/-- Shared state of the two-task start race: `vcReg` is the connection
state's voice-client map entry for the guild (py-cord), `reg` the cog's
`self.connections` entry. -/
structure Race2 where
  vcReg : Bool
  reg : Bool
  pc1 : TPc
  res1 : TRes
  pc2 : TPc
  res2 : TRes
  deriving DecidableEq, Fintype, Repr

/-- Both `/join` calls about to run, nothing registered. -/
def race2Init : Race2 :=
  ⟨false, false, TPc.start, TRes.pending, TPc.start, TRes.pending⟩

/-- Advance task 1 (`w` = true) or task 2 by one segment; `es` is whether
an error-embed send issued during this step succeeds (relevant only to the
except segment). -/
def raceStep2 (w es : Bool) (s : Race2) : Race2 :=
  if w then
    match s.pc1 with
    | TPc.start =>
      if s.reg then { s with pc1 := TPc.done, res1 := TRes.alreadyActive }
      else { s with pc1 := TPc.passedCheck }
    | TPc.passedCheck =>
      if s.vcReg then { s with pc1 := TPc.excPending }
      else { s with vcReg := true, pc1 := TPc.connected }
    | TPc.connected =>
      { s with reg := true, pc1 := TPc.done, res1 := TRes.started }
    | TPc.excPending =>
      if es then
        if s.reg then
          { s with reg := false, vcReg := false, pc1 := TPc.done,
                   res1 := TRes.failed }
        else { s with pc1 := TPc.done, res1 := TRes.failed }
      else { s with pc1 := TPc.done, res1 := TRes.failed }
    | TPc.done => s
  else
    match s.pc2 with
    | TPc.start =>
      if s.reg then { s with pc2 := TPc.done, res2 := TRes.alreadyActive }
      else { s with pc2 := TPc.passedCheck }
    | TPc.passedCheck =>
      if s.vcReg then { s with pc2 := TPc.excPending }
      else { s with vcReg := true, pc2 := TPc.connected }
    | TPc.connected =>
      { s with reg := true, pc2 := TPc.done, res2 := TRes.started }
    | TPc.excPending =>
      if es then
        if s.reg then
          { s with reg := false, vcReg := false, pc2 := TPc.done,
                   res2 := TRes.failed }
        else { s with pc2 := TPc.done, res2 := TRes.failed }
      else { s with pc2 := TPc.done, res2 := TRes.failed }
    | TPc.done => s

/-- Run a schedule: each entry is (task choice, error-send outcome). -/
def runRace2 : List (Bool × Bool) → Race2 → Race2
  | [], s => s
  | p :: t, s => runRace2 t (raceStep2 p.1 p.2 s)

/-- Whether executing this step performs the line-95 registry insert. -/
def stepInsert (w : Bool) (s : Race2) : Nat :=
  if w then (if s.pc1 = TPc.connected then 1 else 0)
  else (if s.pc2 = TPc.connected then 1 else 0)

/-- Number of `self.connections[guild_id] = ...` assignments a schedule
performs. -/
def countInserts : List (Bool × Bool) → Race2 → Nat
  | [], _ => 0
  | p :: t, s => stepInsert p.1 s + countInserts t (raceStep2 p.1 p.2 s)

/-- How many of the two calls have reported success. -/
def startedCount (s : Race2) : Nat :=
  (if s.res1 = TRes.started then 1 else 0) +
    (if s.res2 = TRes.started then 1 else 0)

/-- How many tasks sit between the connect guard and the insert. -/
def connCount (s : Race2) : Nat :=
  (if s.pc1 = TPc.connected then 1 else 0) +
    (if s.pc2 = TPc.connected then 1 else 0)

/-- Inductive invariant of the start race.  The decisive clauses: at most
one task is past the connect guard or already successful (the guard's
check-and-add is synchronous); the cog registry entry belongs to a
finished winner; a task in the except path implies the other task won the
guard; an Already Recording refusal implies the other task finished
successfully. -/
def InvRace2 (s : Race2) : Prop :=
  startedCount s + connCount s ≤ 1 ∧
  (s.pc1 = TPc.connected → s.vcReg = true) ∧
  (s.pc2 = TPc.connected → s.vcReg = true) ∧
  (s.reg = true →
    (s.pc1 = TPc.done ∧ s.res1 = TRes.started) ∨
    (s.pc2 = TPc.done ∧ s.res2 = TRes.started)) ∧
  (s.vcReg = false →
    (s.res1 ≠ TRes.started ∧ s.res2 ≠ TRes.started) ∨
    (s.pc1 = TPc.done ∧ s.pc2 = TPc.done)) ∧
  ((s.pc1 = TPc.passedCheck ∨ s.pc2 = TPc.passedCheck) →
    s.vcReg = false → startedCount s + connCount s = 0) ∧
  (s.pc1 ≠ TPc.done → s.res1 = TRes.pending) ∧
  (s.pc2 ≠ TPc.done → s.res2 = TRes.pending) ∧
  (s.pc1 = TPc.done → s.res1 ≠ TRes.pending) ∧
  (s.pc2 = TPc.done → s.res2 ≠ TRes.pending) ∧
  ((s.pc1 = TPc.excPending ∨ (s.pc1 = TPc.done ∧ s.res1 = TRes.failed)) →
    s.pc2 = TPc.connected ∨ (s.pc2 = TPc.done ∧ s.res2 = TRes.started)) ∧
  ((s.pc2 = TPc.excPending ∨ (s.pc2 = TPc.done ∧ s.res2 = TRes.failed)) →
    s.pc1 = TPc.connected ∨ (s.pc1 = TPc.done ∧ s.res1 = TRes.started)) ∧
  (s.res1 = TRes.alreadyActive →
    s.pc2 = TPc.done ∧ s.res2 = TRes.started) ∧
  (s.res2 = TRes.alreadyActive →
    s.pc1 = TPc.done ∧ s.res1 = TRes.started) ∧
  (s.vcReg = true →
    s.pc1 = TPc.connected ∨ (s.pc1 = TPc.done ∧ s.res1 = TRes.started) ∨
    s.pc2 = TPc.connected ∨ (s.pc2 = TPc.done ∧ s.res2 = TRes.started))

set_option synthInstance.maxSize 1024 in
instance (s : Race2) : Decidable (InvRace2 s) := by
  unfold InvRace2
  infer_instance

/-- An idle tenant: no session, nothing connected or recording. -/
def idleSt : St :=
  { activeSt with
    inConnections := false,
    inTasks := false,
    connected := false,
    recording := false }

/-! Invariant for the stop-trigger race (claim set around exactly-once
release and removal).  `b2n` counts a Bool. -/

/-- Numeric value of a Bool. -/
def b2n (b : Bool) : Nat := if b then 1 else 0

/-- Race invariant: the one connection is either still live or has been
released exactly once; the one registry entry is either still present or
has been removed exactly once; at most one of recording-in-progress /
callback-pending / finalize-executed holds (so the finalize body runs at
most once); and the connection can only be live while the session is
registered. -/
def Inv (s : St) : Prop :=
  b2n s.connected + s.releases = 1 ∧
  b2n s.inConnections + s.removals = 1 ∧
  s.finalizeRuns + b2n s.callbackScheduled + b2n s.recording ≤ 1 ∧
  (s.connected = true → s.inConnections = true)

/-- An active session right after a winning `stop_recording`: the
recording flag is clear and the finished callback is pending. -/
def stoppedSt : St :=
  { activeSt with recording := false, callbackScheduled := true }

/-- All Discord calls succeed except the Processing-embed send, which
raises (recording.py line 218). -/
def extProcFail : Ext :=
  ⟨true, false, true, true, true, true, true⟩

/-!
Model of the `RecordingAlternative.status_update_task` loop
(src/cogs/recording_alternative.py lines 372-385).  Each tick iterates a
snapshot of the CURRENT `self.connections` dict; for each guild whose
entry has a status message it re-renders the embed and edits the message;
the whole per-guild body sits in try/except, so a failed edit is logged
and the loop moves on to the next guild, and the loop body as a whole
never raises (which is what keeps the `tasks.loop` alive for future
ticks).  The body reads `connection_info` only; it mutates neither the
dict nor any entry.
-/

/-- One registered guild's connection info as read by the status task
(the fields the tick touches). -/
structure AltConn where
  hasStatusMessage : Bool
  startTime : Nat
  deriving DecidableEq, Repr

/-- The for-loop of one tick: returns the attempted edits as
(guild, edit-succeeded) in iteration order; `publishOk` tells which
`status_message.edit` calls raise.  A raise is caught per-guild (lines
384-385), so iteration continues regardless. -/
def tickLoop (publishOk : Nat → Bool) :
    List (Nat × AltConn) → List (Nat × Bool)
  | [] => []
  | p :: rest =>
    if p.2.hasStatusMessage then
      (p.1, publishOk p.1) :: tickLoop publishOk rest
    else tickLoop publishOk rest

/-- One tick of `status_update_task`: reads the current registry, edits
status messages, changes no session state. -/
def statusTick (publishOk : Nat → Bool) (conns : List (Nat × AltConn)) :
    List (Nat × AltConn) × List (Nat × Bool) :=
  (conns, tickLoop publishOk conns)

/-- The recurring task over a schedule: at each tick the registry as the
rest of the bot has evolved it, plus that tick's publish outcomes.  Every
scheduled tick executes, whatever earlier ticks' publishes did. -/
def runStatusTicks :
    List ((Nat → Bool) × List (Nat × AltConn)) → List (List (Nat × Bool))
  | [] => []
  | t :: rest => (statusTick t.1 t.2).2 :: runStatusTicks rest

/-!
Model of the `Meeting` dataclass (src/steve/db/models/meeting.py) and of
the Python datetime capability it uses.  Naive datetimes only, as produced
by `datetime.now()` in the cog.  `datetime.isoformat()` renders
YYYY-MM-DDTHH:MM:SS with a .ffffff suffix exactly when the microsecond
field is non-zero, and `datetime.fromisoformat` inverts that rendering;
strings are modelled as their character lists.  `fromisoformat`'s
constructor-range validation is mirrored except that the day is checked
against 31 rather than the per-month length (real datetimes satisfy the
stricter bound, so the round trip is unaffected).
-/

structure DateTime where
  year : Nat
  month : Nat
  day : Nat
  hour : Nat
  minute : Nat
  second : Nat
  microsecond : Nat
  deriving DecidableEq, Repr

/-- Field ranges a real Python datetime satisfies (MINYEAR = 1,
MAXYEAR = 9999; day bound relaxed to 31, see the section comment). -/
def DateTime.validRange (d : DateTime) : Prop :=
  1 ≤ d.year ∧ d.year ≤ 9999 ∧ 1 ≤ d.month ∧ d.month ≤ 12 ∧
  1 ≤ d.day ∧ d.day ≤ 31 ∧ d.hour ≤ 23 ∧ d.minute ≤ 59 ∧
  d.second ≤ 59 ∧ d.microsecond ≤ 999999

instance (d : DateTime) : Decidable d.validRange := by
  unfold DateTime.validRange
  infer_instance

/-- The character for decimal digit `d`. -/
def digitChar (d : Nat) : Char := Char.ofNat (48 + d)

/-- The decimal value of a digit character. -/
def digitVal (c : Char) : Nat := c.toNat - 48

/-- Whether `c` is a decimal digit. -/
def isDigitCh (c : Char) : Bool := 48 ≤ c.toNat && c.toNat ≤ 57

def allDigits (l : List Char) : Bool := l.all isDigitCh

/-- Zero-padded two-digit rendering. -/
def pad2 (n : Nat) : List Char :=
  [digitChar (n / 10 % 10), digitChar (n % 10)]

/-- Zero-padded four-digit rendering. -/
def pad4 (n : Nat) : List Char :=
  [digitChar (n / 1000 % 10), digitChar (n / 100 % 10),
   digitChar (n / 10 % 10), digitChar (n % 10)]

/-- Zero-padded six-digit rendering. -/
def pad6 (n : Nat) : List Char :=
  [digitChar (n / 100000 % 10), digitChar (n / 10000 % 10),
   digitChar (n / 1000 % 10), digitChar (n / 100 % 10),
   digitChar (n / 10 % 10), digitChar (n % 10)]

def num2 (a b : Char) : Nat := digitVal a * 10 + digitVal b

def num4 (a b c d : Char) : Nat :=
  digitVal a * 1000 + digitVal b * 100 + digitVal c * 10 + digitVal d

def num6 (a b c d e f : Char) : Nat :=
  digitVal a * 100000 + digitVal b * 10000 + digitVal c * 1000 +
    digitVal d * 100 + digitVal e * 10 + digitVal f

/-- `datetime.isoformat()` for a naive datetime: the .ffffff part appears
exactly when microsecond is non-zero. -/
def DateTime.isoformat (d : DateTime) : List Char :=
  pad4 d.year ++ '-' :: pad2 d.month ++ '-' :: pad2 d.day ++
    'T' :: pad2 d.hour ++ ':' :: pad2 d.minute ++ ':' :: pad2 d.second ++
    (if d.microsecond = 0 then [] else '.' :: pad6 d.microsecond)

/-- Digit/separator/range validation and datetime construction shared by
both accepted shapes of `fromisoformat`. -/
def parseDT (y1 y2 y3 y4 a m1 m2 b d1 d2 c o1 o2 e i1 i2 f s1 s2 : Char)
    (micro : Nat) : Option DateTime :=
  if a = '-' ∧ b = '-' ∧ c = 'T' ∧ e = ':' ∧ f = ':' ∧
      allDigits [y1, y2, y3, y4, m1, m2, d1, d2, o1, o2, i1, i2, s1, s2]
        = true ∧
      1 ≤ num4 y1 y2 y3 y4 ∧
      1 ≤ num2 m1 m2 ∧ num2 m1 m2 ≤ 12 ∧
      1 ≤ num2 d1 d2 ∧ num2 d1 d2 ≤ 31 ∧
      num2 o1 o2 ≤ 23 ∧ num2 i1 i2 ≤ 59 ∧ num2 s1 s2 ≤ 59 then
    some ⟨num4 y1 y2 y3 y4, num2 m1 m2, num2 d1 d2,
          num2 o1 o2, num2 i1 i2, num2 s1 s2, micro⟩
  else none

/-- `datetime.fromisoformat` restricted to the two shapes `isoformat`
emits for naive datetimes (with and without microseconds); anything else
raises ValueError, modelled as none. -/
def DateTime.fromisoformat : List Char → Option DateTime
  | [y1, y2, y3, y4, a, m1, m2, b, d1, d2, c, o1, o2, e, i1, i2, f,
     s1, s2] =>
    parseDT y1 y2 y3 y4 a m1 m2 b d1 d2 c o1 o2 e i1 i2 f s1 s2 0
  | [y1, y2, y3, y4, a, m1, m2, b, d1, d2, c, o1, o2, e, i1, i2, f,
     s1, s2, dot, u1, u2, u3, u4, u5, u6] =>
    if dot = '.' ∧ allDigits [u1, u2, u3, u4, u5, u6] = true then
      parseDT y1 y2 y3 y4 a m1 m2 b d1 d2 c o1 o2 e i1 i2 f s1 s2
        (num6 u1 u2 u3 u4 u5 u6)
    else none
  | _ => none

/-- The dictionary keys appearing in Meeting.to_dict / from_dict (the
dataclass field names; `end` is a Lean keyword, rendered `endTime`). -/
inductive MKey where
  | channel_id
  | guild_id
  | start
  | meeting_log
  | endTime
  | participants
  | recordings
  | transcription
  | id
  deriving DecidableEq, Repr

/-- A Python value stored in a meeting dict: ints, strings, datetimes,
None, lists of ints or strings, and the meeting-log dict (modelled as a
string-to-string association list; its content is passed through
untouched by to_dict/from_dict). -/
inductive DVal where
  | vint : Int → DVal
  | vstr : List Char → DVal
  | vdt : DateTime → DVal
  | vnone : DVal
  | vintList : List Int → DVal
  | vstrList : List (List Char) → DVal
  | vlog : List (List Char × List Char) → DVal
  deriving DecidableEq, Repr

/-- The Meeting dataclass (src/steve/db/models/meeting.py lines 6-30).
All fields after `start` have defaults. -/
structure Meeting where
  channel_id : Int
  guild_id : Int
  start : DateTime
  meeting_log : Option (List (List Char × List Char)) := none
  endTime : Option DateTime := none
  participants : List Int := []
  recordings : List (List Char) := []
  transcription : Option (List Char) := none
  id : Option (List Char) := none
  deriving DecidableEq, Repr

def optStr : Option (List Char) → DVal
  | none => DVal.vnone
  | some s => DVal.vstr s

def optLog : Option (List (List Char × List Char)) → DVal
  | none => DVal.vnone
  | some l => DVal.vlog l

/-- End-time rendering in to_dict: `asdict` copies None or the datetime,
then lines 46-47 overwrite a present datetime with its isoformat. -/
def optEnd : Option DateTime → DVal
  | none => DVal.vnone
  | some t => DVal.vstr t.isoformat

/-- `Meeting.to_dict` (meeting.py lines 32-51): `asdict(self)` in field
order, with `start`/`end` datetimes replaced by isoformat strings (`start`
is always a datetime and always truthy, line 43) and the `id` key popped
(line 49). -/
def Meeting.to_dict (m : Meeting) : List (MKey × DVal) :=
  [(MKey.channel_id, DVal.vint m.channel_id),
   (MKey.guild_id, DVal.vint m.guild_id),
   (MKey.start, DVal.vstr m.start.isoformat),
   (MKey.meeting_log, optLog m.meeting_log),
   (MKey.endTime, optEnd m.endTime),
   (MKey.participants, DVal.vintList m.participants),
   (MKey.recordings, DVal.vstrList m.recordings),
   (MKey.transcription, optStr m.transcription)]

def lookupD (k : MKey) (d : List (MKey × DVal)) : Option DVal :=
  (d.find? fun p => p.1 == k).map fun p => p.2

/-- `Meeting.from_dict` (meeting.py lines 53-80): parse `start`/`end` when
they are ISO strings (a raising `datetime.fromisoformat` propagates:
none); default `participants`/`recordings` to `[]` when the keys are
absent (lines 74-78); then `cls(**data)`: a missing required key or (in
this typed model) a value of the wrong runtime type is none. -/
def Meeting.from_dict (d : List (MKey × DVal)) : Option Meeting := do
  let st ← match lookupD MKey.start d with
    | some (DVal.vstr cs) => DateTime.fromisoformat cs
    | some (DVal.vdt t) => some t
    | _ => none
  let en ← match lookupD MKey.endTime d with
    | some (DVal.vstr cs) => (DateTime.fromisoformat cs).map some
    | some (DVal.vdt t) => some (some t)
    | some DVal.vnone => some none
    | none => some none
    | _ => none
  let pa ← match lookupD MKey.participants d with
    | some (DVal.vintList l) => some l
    | none => some []
    | _ => none
  let re ← match lookupD MKey.recordings d with
    | some (DVal.vstrList l) => some l
    | none => some []
    | _ => none
  let ci ← match lookupD MKey.channel_id d with
    | some (DVal.vint n) => some n
    | _ => none
  let gi ← match lookupD MKey.guild_id d with
    | some (DVal.vint n) => some n
    | _ => none
  let ml ← match lookupD MKey.meeting_log d with
    | some (DVal.vlog l) => some (some l)
    | some DVal.vnone => some none
    | none => some none
    | _ => none
  let tr ← match lookupD MKey.transcription d with
    | some (DVal.vstr cs) => some (some cs)
    | some DVal.vnone => some none
    | none => some none
    | _ => none
  let mi ← match lookupD MKey.id d with
    | some (DVal.vstr cs) => some (some cs)
    | some DVal.vnone => some none
    | none => some none
    | _ => none
  some ⟨ci, gi, st, ml, en, pa, re, tr, mi⟩

/-- A concrete datetime with microseconds. -/
def dt0 : DateTime := ⟨2024, 5, 17, 12, 30, 45, 123456⟩

/-- A concrete datetime without microseconds. -/
def dt1 : DateTime := ⟨2024, 5, 17, 13, 0, 0, 0⟩

/-- A concrete meeting exercising both datetime shapes and the optional
fields. -/
def m0 : Meeting :=
  ⟨42, 99, dt0, none, some dt1, [1, 2], [['a'], ['b']], none, some ['m']⟩

theorem inv_activeSt : Inv activeSt := by
  constructor <;> simp [activeSt, b2n]

theorem inv_cancelTask {s : St} (h : Inv s) : Inv (cancelTask s) := by
  unfold cancelTask
  split
  · obtain ⟨h1, h2, h3, h4⟩ := h
    exact ⟨h1, h2, h3, h4⟩
  · exact h

theorem inv_cleanup {s : St} (h : Inv s) : Inv (cleanup s) := by
  unfold cleanup
  have h' := inv_cancelTask h
  set s1 := cancelTask s with hs1
  obtain ⟨h1, h2, h3, h4⟩ := h'
  by_cases hreg : s1.inConnections
  · simp only [hreg, if_true]
    by_cases hc : s1.connected
    · simp only [hc, if_true]
      refine ⟨?_, ?_, h3, ?_⟩
      · simp only [b2n] at h1 ⊢
        simp [hc] at h1
        simp [h1]
      · simp only [b2n] at h2 ⊢
        simp [hreg] at h2
        simp [h2]
      · intro hcf
        simp at hcf
    · simp only [hc, if_false]
      refine ⟨h1, ?_, h3, ?_⟩
      · simp only [b2n] at h2 ⊢
        simp [hreg] at h2
        simp [h2]
      · intro hcf
        simp only [Bool.not_eq_true] at hc
        simp [hc] at hcf
  · simp only [hreg, if_false]
    exact ⟨h1, h2, h3, h4⟩

/-- Cleanup always leaves the registry without the tenant's entry. -/
theorem cleanup_not_registered (s : St) : (cleanup s).inConnections = false := by
  unfold cleanup
  by_cases hreg : (cancelTask s).inConnections
  · simp [hreg]
  · simp only [hreg, if_false]
    simp only [Bool.not_eq_true] at hreg
    exact hreg

theorem inv_vcStopRecording {s : St} (h : Inv s) (hrec : s.recording = true) :
    Inv (vcStopRecording s) := by
  obtain ⟨h1, h2, h3, h4⟩ := h
  refine ⟨h1, h2, ?_, h4⟩
  unfold vcStopRecording
  by_cases hcb : s.callbackScheduled <;> simp_all [b2n]

theorem inv_manualStop {s : St} (h : Inv s) : Inv (manualStop s) := by
  unfold manualStop
  by_cases hreg : s.inConnections
  · simp only [hreg, if_true]
    by_cases hrec : s.recording
    · simp only [hrec, if_true]
      exact inv_vcStopRecording h hrec
    · simp only [hrec, if_false]
      exact inv_cleanup h
  · simp only [hreg, if_false]
    exact h

theorem inv_timeoutFire {s : St} (h : Inv s) : Inv (timeoutFire s) := by
  unfold timeoutFire
  by_cases ht : s.inTasks
  · simp only [ht, if_true]
    by_cases hreg : s.inConnections
    · simp only [hreg, if_true]
      by_cases hrec : s.recording
      · simp only [hrec, if_true]
        exact inv_vcStopRecording h hrec
      · simp only [hrec, if_false]
        exact h
    · simp only [hreg, if_false]
      exact h
  · simp only [ht, if_false]
    exact h

theorem inv_dropConnection {s : St} (h : Inv s) : Inv (dropConnection s) := by
  obtain ⟨h1, h2, h3, h4⟩ := h
  unfold dropConnection
  by_cases hc : s.connected
  · simp only [hc, if_true]
    refine ⟨?_, h2, h3, ?_⟩
    · simp only [b2n] at h1 ⊢
      simp [hc] at h1
      simp [h1]
    · intro hcf
      simp at hcf
  · simp only [hc, if_false]
    exact ⟨h1, h2, h3, h4⟩

theorem inv_extDisconnect {s : St} (h : Inv s) : Inv (extDisconnect s) := by
  unfold extDisconnect
  have h' := inv_dropConnection h
  by_cases hreg : (dropConnection s).inConnections
  · simp only [hreg, if_true]
    exact inv_cleanup h'
  · simp only [hreg, if_false]
    exact h'

theorem inv_exceptPath {s : St} (x : Ext) (h : Inv s) :
    Inv (exceptPath x s) := by
  unfold exceptPath
  by_cases he : x.sendErrorOk
  · simp only [he, if_true]
    obtain ⟨h1, h2, h3, h4⟩ := h
    exact inv_cleanup ⟨h1, h2, h3, h4⟩
  · simp only [he]
    simp only [if_false, Bool.false_eq_true]
    exact inv_cleanup h

/-! Frame lemmas: which fields each operation leaves unchanged. -/

@[simp] theorem cancelTask_inConnections (s : St) :
    (cancelTask s).inConnections = s.inConnections := by
  unfold cancelTask; split <;> rfl

@[simp] theorem cancelTask_connected (s : St) :
    (cancelTask s).connected = s.connected := by
  unfold cancelTask; split <;> rfl

@[simp] theorem cancelTask_recording (s : St) :
    (cancelTask s).recording = s.recording := by
  unfold cancelTask; split <;> rfl

@[simp] theorem cancelTask_callbackScheduled (s : St) :
    (cancelTask s).callbackScheduled = s.callbackScheduled := by
  unfold cancelTask; split <;> rfl

@[simp] theorem cancelTask_meetingPresent (s : St) :
    (cancelTask s).meetingPresent = s.meetingPresent := by
  unfold cancelTask; split <;> rfl

@[simp] theorem cancelTask_finalizeRuns (s : St) :
    (cancelTask s).finalizeRuns = s.finalizeRuns := by
  unfold cancelTask; split <;> rfl

@[simp] theorem cancelTask_releases (s : St) :
    (cancelTask s).releases = s.releases := by
  unfold cancelTask; split <;> rfl

@[simp] theorem cancelTask_disconnectCalls (s : St) :
    (cancelTask s).disconnectCalls = s.disconnectCalls := by
  unfold cancelTask; split <;> rfl

@[simp] theorem cancelTask_removals (s : St) :
    (cancelTask s).removals = s.removals := by
  unfold cancelTask; split <;> rfl

@[simp] theorem cancelTask_blobCalls (s : St) :
    (cancelTask s).blobCalls = s.blobCalls := by
  unfold cancelTask; split <;> rfl

@[simp] theorem cancelTask_updateCalls (s : St) :
    (cancelTask s).updateCalls = s.updateCalls := by
  unfold cancelTask; split <;> rfl

@[simp] theorem cancelTask_deleteCalls (s : St) :
    (cancelTask s).deleteCalls = s.deleteCalls := by
  unfold cancelTask; split <;> rfl

@[simp] theorem cancelTask_transcribeCalls (s : St) :
    (cancelTask s).transcribeCalls = s.transcribeCalls := by
  unfold cancelTask; split <;> rfl

@[simp] theorem cleanup_recording (s : St) :
    (cleanup s).recording = s.recording := by
  unfold cleanup; dsimp only
  split
  · split <;> simp
  · simp

@[simp] theorem cleanup_callbackScheduled (s : St) :
    (cleanup s).callbackScheduled = s.callbackScheduled := by
  unfold cleanup; dsimp only
  split
  · split <;> simp
  · simp

@[simp] theorem cleanup_meetingPresent (s : St) :
    (cleanup s).meetingPresent = s.meetingPresent := by
  unfold cleanup; dsimp only
  split
  · split <;> simp
  · simp

@[simp] theorem cleanup_finalizeRuns (s : St) :
    (cleanup s).finalizeRuns = s.finalizeRuns := by
  unfold cleanup; dsimp only
  split
  · split <;> simp
  · simp

@[simp] theorem cleanup_blobCalls (s : St) :
    (cleanup s).blobCalls = s.blobCalls := by
  unfold cleanup; dsimp only
  split
  · split <;> simp
  · simp

@[simp] theorem cleanup_updateCalls (s : St) :
    (cleanup s).updateCalls = s.updateCalls := by
  unfold cleanup; dsimp only
  split
  · split <;> simp
  · simp

@[simp] theorem cleanup_deleteCalls (s : St) :
    (cleanup s).deleteCalls = s.deleteCalls := by
  unfold cleanup; dsimp only
  split
  · split <;> simp
  · simp

@[simp] theorem cleanup_transcribeCalls (s : St) :
    (cleanup s).transcribeCalls = s.transcribeCalls := by
  unfold cleanup; dsimp only
  split
  · split <;> simp
  · simp

/-- Cleanup of a registered, still-connected session disconnects exactly
once. -/
theorem cleanup_disconnectCalls_of_live {s : St} (hreg : s.inConnections = true)
    (hc : s.connected = true) :
    (cleanup s).disconnectCalls = s.disconnectCalls + 1 ∧
    (cleanup s).connected = false ∧
    (cleanup s).removals = s.removals + 1 := by
  unfold cleanup; dsimp only
  simp [hreg, hc]

/-- Cleanup of a registered session removes the registry entry exactly
once. -/
theorem cleanup_removals_of_reg {s : St} (hreg : s.inConnections = true) :
    (cleanup s).removals = s.removals + 1 := by
  unfold cleanup; dsimp only
  by_cases hc : s.connected <;> simp [hreg, hc]

/-- Cleanup of an unregistered session touches neither the connection nor
the registry counters. -/
theorem cleanup_of_unreg {s : St} (hreg : s.inConnections = false) :
    (cleanup s).connected = s.connected ∧
    (cleanup s).disconnectCalls = s.disconnectCalls ∧
    (cleanup s).removals = s.removals := by
  unfold cleanup; dsimp only
  simp [hreg]

/-- Inv only looks at the connection, registry, finalize and scheduling
fields; states agreeing there share it. -/
theorem inv_of_eq_fields {s t : St} (h : Inv s)
    (hc : t.connected = s.connected) (hrel : t.releases = s.releases)
    (hic : t.inConnections = s.inConnections) (hrm : t.removals = s.removals)
    (hfr : t.finalizeRuns = s.finalizeRuns)
    (hcb : t.callbackScheduled = s.callbackScheduled)
    (hrec : t.recording = s.recording) : Inv t := by
  obtain ⟨h1, h2, h3, h4⟩ := h
  refine ⟨?_, ?_, ?_, ?_⟩
  · rw [hc, hrel]; exact h1
  · rw [hic, hrm]; exact h2
  · rw [hfr, hcb, hrec]; exact h3
  · rw [hc, hic]; exact h4

theorem inv_noAudioSt {s : St} (h : Inv s) : Inv (noAudioSt s) :=
  inv_of_eq_fields h rfl rfl rfl rfl rfl rfl rfl

theorem inv_blobSt {s : St} (sink : List (Nat × Nat)) (h : Inv s) :
    Inv (blobSt sink s) :=
  inv_of_eq_fields h rfl rfl rfl rfl rfl rfl rfl

theorem inv_updSt {s : St} (sink : List (Nat × Nat)) (h : Inv s) :
    Inv (updSt sink s) :=
  inv_of_eq_fields (inv_blobSt sink h) rfl rfl rfl rfl rfl rfl rfl

theorem inv_tcSt {s : St} (sink : List (Nat × Nat)) (h : Inv s) :
    Inv (tcSt sink s) :=
  inv_of_eq_fields (inv_cleanup (inv_updSt sink h)) rfl rfl rfl rfl rfl rfl rfl

set_option maxHeartbeats 1000000 in
theorem inv_finalizeBody {s : St} (sink : List (Nat × Nat)) (x : Ext)
    (h : Inv s) : Inv (finalizeBody sink x s) := by
  unfold finalizeBody
  split_ifs <;>
    first
      | exact inv_exceptPath x h
      | exact inv_exceptPath x (inv_noAudioSt h)
      | exact inv_cleanup
          (inv_of_eq_fields (inv_noAudioSt h) rfl rfl rfl rfl rfl rfl rfl)
      | exact inv_exceptPath x (inv_blobSt sink h)
      | exact inv_exceptPath x (inv_updSt sink h)
      | exact inv_exceptPath x (inv_tcSt sink h)
      | exact inv_cleanup
          (inv_of_eq_fields (inv_tcSt sink h) rfl rfl rfl rfl rfl rfl rfl)
      | exact inv_cleanup
          (inv_of_eq_fields (inv_blobSt sink h) rfl rfl rfl rfl rfl rfl rfl)

theorem inv_runCallback {s : St} (sink : List (Nat × Nat)) (x : Ext)
    (h : Inv s) : Inv (runCallback sink x s) := by
  unfold runCallback
  by_cases hcb : s.callbackScheduled = false
  · rw [if_pos hcb]
    exact h
  · rw [if_neg hcb]
    have hcb' : s.callbackScheduled = true := by
      cases hx : s.callbackScheduled
      · exact absurd hx hcb
      · rfl
    obtain ⟨h1, h2, h3, h4⟩ := h
    have hfr : s.finalizeRuns = 0 ∧ s.recording = false := by
      rw [hcb'] at h3
      by_cases hr : s.recording <;> simp [hr, b2n] at h3 ⊢ <;> omega
    have hA : Inv (cancelTask { s with callbackScheduled := false }) := by
      apply inv_cancelTask
      exact ⟨h1, h2, by simp [b2n, hfr.1, hfr.2], h4⟩
    dsimp only
    by_cases hreg :
        (cancelTask { s with callbackScheduled := false }).inConnections = false
    · rw [if_pos hreg]
      exact inv_cleanup hA
    · rw [if_neg hreg]
      apply inv_finalizeBody
      obtain ⟨a1, a2, a3, a4⟩ := hA
      refine ⟨a1, a2, ?_, a4⟩
      simp [b2n, hfr.1, hfr.2]

theorem inv_step {s : St} (sink : List (Nat × Nat)) (x : Ext) (e : Ev)
    (h : Inv s) : Inv (step sink x e s) := by
  cases e
  · exact inv_manualStop h
  · exact inv_timeoutFire h
  · exact inv_extDisconnect h
  · exact inv_runCallback sink x h

theorem inv_runTrace {s : St} (sink : List (Nat × Nat)) (x : Ext)
    (t : List Ev) (h : Inv s) : Inv (runTrace sink x t s) := by
  induction t generalizing s with
  | nil => exact h
  | cons e rest ih => exact ih (inv_step sink x e h)

theorem inv_drainCb {s : St} (sink : List (Nat × Nat)) (x : Ext)
    (h : Inv s) : Inv (drainCb sink x s) := by
  unfold drainCb
  split
  · exact inv_runCallback sink x h
  · exact h

/-! Once the tenant's registry entry is gone it never comes back during
the stop race (no start request among the stop triggers). -/

/-- The external-disconnect listener always leaves the tenant
deregistered. -/
theorem extDisconnect_unreg (s : St) : (extDisconnect s).inConnections = false := by
  unfold extDisconnect
  dsimp only
  by_cases hreg : (dropConnection s).inConnections = true
  · rw [if_pos hreg]
    exact cleanup_not_registered _
  · rw [if_neg hreg]
    simpa using hreg

theorem manualStop_unreg {s : St} (h : s.inConnections = false) :
    (manualStop s).inConnections = false := by
  unfold manualStop
  simp [h]

theorem timeoutFire_unreg {s : St} (h : s.inConnections = false) :
    (timeoutFire s).inConnections = false := by
  unfold timeoutFire
  simp [h]

theorem runCallback_unreg {s : St} (sink : List (Nat × Nat)) (x : Ext)
    (h : s.inConnections = false) :
    (runCallback sink x s).inConnections = false := by
  unfold runCallback
  by_cases hcb : s.callbackScheduled = false
  · rw [if_pos hcb]
    exact h
  · rw [if_neg hcb]
    dsimp only
    rw [if_pos (by simp [h])]
    exact cleanup_not_registered _

theorem step_unreg {s : St} (sink : List (Nat × Nat)) (x : Ext) (e : Ev)
    (h : s.inConnections = false) : (step sink x e s).inConnections = false := by
  cases e
  · exact manualStop_unreg h
  · exact timeoutFire_unreg h
  · exact extDisconnect_unreg s
  · exact runCallback_unreg sink x h

theorem runTrace_unreg {s : St} (sink : List (Nat × Nat)) (x : Ext)
    (t : List Ev) (h : s.inConnections = false) :
    (runTrace sink x t s).inConnections = false := by
  induction t generalizing s with
  | nil => exact h
  | cons e rest ih => exact ih (step_unreg sink x e h)

/-- After any trace containing the external-disconnect trigger, the
tenant is deregistered. -/
theorem runTrace_unreg_of_extDisc {s : St} (sink : List (Nat × Nat)) (x : Ext)
    {t : List Ev} (hmem : Ev.extDisc ∈ t) :
    (runTrace sink x t s).inConnections = false := by
  induction t generalizing s with
  | nil => cases hmem
  | cons e rest ih =>
    rcases List.mem_cons.mp hmem with he | he
    · subst he
      by_cases hr : Ev.extDisc ∈ rest
      · exact ih hr
      · exact runTrace_unreg sink x rest (extDisconnect_unreg s)
    · exact ih he

theorem drainCb_unreg {s : St} (sink : List (Nat × Nat)) (x : Ext)
    (h : s.inConnections = false) : (drainCb sink x s).inConnections = false := by
  unfold drainCb
  split
  · exact step_unreg sink x Ev.callback h
  · exact h

/-! Effect lemmas for the cleanup paths. -/

@[simp] theorem cancelTask_sentNoAudioMsg (s : St) :
    (cancelTask s).sentNoAudioMsg = s.sentNoAudioMsg := by
  unfold cancelTask; split <;> rfl

@[simp] theorem cancelTask_sentNoValidMsg (s : St) :
    (cancelTask s).sentNoValidMsg = s.sentNoValidMsg := by
  unfold cancelTask; split <;> rfl

@[simp] theorem cleanup_sentNoAudioMsg (s : St) :
    (cleanup s).sentNoAudioMsg = s.sentNoAudioMsg := by
  unfold cleanup; dsimp only
  split
  · split <;> simp
  · simp

@[simp] theorem cleanup_sentNoValidMsg (s : St) :
    (cleanup s).sentNoValidMsg = s.sentNoValidMsg := by
  unfold cleanup; dsimp only
  split
  · split <;> simp
  · simp

/-- Cleanup of a registered, still-connected session: entry removed,
connection released, both exactly once. -/
theorem cleanup_live {s : St} (hreg : s.inConnections = true)
    (hc : s.connected = true) :
    (cleanup s).inConnections = false ∧ (cleanup s).connected = false ∧
    (cleanup s).disconnectCalls = s.disconnectCalls + 1 ∧
    (cleanup s).removals = s.removals + 1 := by
  obtain ⟨a, b, c⟩ := cleanup_disconnectCalls_of_live hreg hc
  exact ⟨cleanup_not_registered s, b, a, c⟩

/-- Cleanup of an already-deregistered session is a no-op on the
connection and the registry counters. -/
theorem cleanup_dead {s : St} (hreg : s.inConnections = false) :
    (cleanup s).inConnections = false ∧ (cleanup s).connected = s.connected ∧
    (cleanup s).disconnectCalls = s.disconnectCalls ∧
    (cleanup s).removals = s.removals := by
  obtain ⟨a, b, c⟩ := cleanup_of_unreg hreg
  exact ⟨cleanup_not_registered s, a, b, c⟩

theorem exceptPath_not_registered (x : Ext) (s : St) :
    (exceptPath x s).inConnections = false :=
  cleanup_not_registered _

/-- The except/finally path on a registered, connected session also
removes the entry and releases the connection exactly once. -/
theorem exceptPath_live (x : Ext) {s : St} (hreg : s.inConnections = true)
    (hc : s.connected = true) :
    (exceptPath x s).inConnections = false ∧
    (exceptPath x s).connected = false ∧
    (exceptPath x s).disconnectCalls = s.disconnectCalls + 1 ∧
    (exceptPath x s).removals = s.removals + 1 := by
  unfold exceptPath
  by_cases he : x.sendErrorOk
  · rw [if_pos he]
    exact cleanup_live hreg hc
  · rw [if_neg he]
    exact cleanup_live hreg hc

/-- The except/finally path on an already-deregistered session leaves the
connection and the registry counters alone. -/
theorem exceptPath_dead (x : Ext) {s : St} (hreg : s.inConnections = false) :
    (exceptPath x s).inConnections = false ∧
    (exceptPath x s).connected = s.connected ∧
    (exceptPath x s).disconnectCalls = s.disconnectCalls ∧
    (exceptPath x s).removals = s.removals := by
  unfold exceptPath
  by_cases he : x.sendErrorOk
  · rw [if_pos he]
    exact cleanup_dead hreg
  · rw [if_neg he]
    exact cleanup_dead hreg

/-- Whatever branch the finalize body takes (including every exception
branch), it deregisters the tenant and releases the still-live connection
exactly once: the finally block's `_cleanup_recording` is unconditional
and guarded against double release by `is_connected()` and the dict
membership test. -/
theorem finalizeBody_cleans {s : St} (sink : List (Nat × Nat)) (x : Ext)
    (hreg : s.inConnections = true) (hc : s.connected = true) :
    (finalizeBody sink x s).inConnections = false ∧
    (finalizeBody sink x s).connected = false ∧
    (finalizeBody sink x s).disconnectCalls = s.disconnectCalls + 1 ∧
    (finalizeBody sink x s).removals = s.removals + 1 := by
  have htc := cleanup_live (s := updSt sink s) hreg hc
  have hd1 := cleanup_dead (s := tcSt sink s) (cleanup_not_registered _)
  have hd2 := cleanup_dead (s := { tcSt sink s with sentSuccessMsg := true })
    (cleanup_not_registered _)
  have he3 := exceptPath_dead x (s := tcSt sink s) (cleanup_not_registered _)
  unfold finalizeBody
  split_ifs <;>
    first
      | exact cleanup_live hreg hc
      | exact exceptPath_live x hreg hc
      | exact ⟨hd1.1, hd1.2.1.trans htc.2.1, hd1.2.2.1.trans htc.2.2.1,
          hd1.2.2.2.trans htc.2.2.2⟩
      | exact ⟨hd2.1, hd2.2.1.trans htc.2.1, hd2.2.2.1.trans htc.2.2.1,
          hd2.2.2.2.trans htc.2.2.2⟩
      | exact ⟨he3.1, he3.2.1.trans htc.2.1, he3.2.2.1.trans htc.2.2.1,
          he3.2.2.2.trans htc.2.2.2⟩

/-- The finalize body always ends deregistered. -/
theorem finalizeBody_unreg (sink : List (Nat × Nat)) (x : Ext) (s : St) :
    (finalizeBody sink x s).inConnections = false := by
  unfold finalizeBody
  split_ifs <;>
    first
      | exact cleanup_not_registered _
      | exact exceptPath_not_registered x _

/-- C1 (counterexample): firing the three stop triggers concurrently does
NOT always run the finalize pipeline exactly once.  In the interleaving
where the external-disconnect listener runs first, then the manual stop,
then the timeout fire (with one non-empty captured audio buffer and all
Discord calls succeeding), the connection is released once and the
registry entry removed once, but the drain/persist/notify finalize body
runs zero times, not once: the listener's direct `_cleanup_recording`
removed the registry entry before any caller issued `stop_recording`, so
the manual stop answered Not Recording and no finished callback was ever
scheduled. -/
theorem c1_counterexample :
    (drainCb [(1, 5)] extAllOk
        (runTrace [(1, 5)] extAllOk [Ev.extDisc, Ev.manual, Ev.timeout]
          activeSt)).finalizeRuns = 0 ∧
    (drainCb [(1, 5)] extAllOk
        (runTrace [(1, 5)] extAllOk [Ev.extDisc, Ev.manual, Ev.timeout]
          activeSt)).releases = 1 ∧
    (drainCb [(1, 5)] extAllOk
        (runTrace [(1, 5)] extAllOk [Ev.extDisc, Ev.manual, Ev.timeout]
          activeSt)).removals = 1 := by
  decide

/-- C1 (amended): for every interleaving of the Manual, Timeout and
ExternalDisconnect stop triggers (each fired once, with the finished
callback running at any points and the event loop drained at the end),
the voice connection is released exactly once and the tenant's registry
entry is removed exactly once, and the finalize pipeline body runs at
most once — only a caller whose `stop_recording` wins the recording-flag
race schedules it, but it can run zero times when the disconnect
listener's cleanup empties the registry first. -/
theorem c1_single_finalize (sink : List (Nat × Nat)) (x : Ext) (t : List Ev)
    (hm : t.count Ev.manual = 1) (ht : t.count Ev.timeout = 1)
    (he : t.count Ev.extDisc = 1) :
    (drainCb sink x (runTrace sink x t activeSt)).releases = 1 ∧
    (drainCb sink x (runTrace sink x t activeSt)).removals = 1 ∧
    (drainCb sink x (runTrace sink x t activeSt)).finalizeRuns ≤ 1 := by
  have hmem : Ev.extDisc ∈ t := by
    by_contra hn
    rw [List.count_eq_zero_of_not_mem hn] at he
    exact absurd he.symm one_ne_zero
  have hur2 : (drainCb sink x (runTrace sink x t activeSt)).inConnections = false :=
    drainCb_unreg sink x (runTrace_unreg_of_extDisc sink x hmem)
  obtain ⟨h1, h2, h3, h4⟩ :=
    inv_drainCb sink x (inv_runTrace sink x t inv_activeSt)
  have hc : (drainCb sink x (runTrace sink x t activeSt)).connected = false := by
    cases hx : (drainCb sink x (runTrace sink x t activeSt)).connected
    · rfl
    · rw [h4 hx] at hur2
      exact absurd hur2 (by simp)
  refine ⟨?_, ?_, ?_⟩
  · rw [hc] at h1
    simpa [b2n] using h1
  · rw [hur2] at h2
    simpa [b2n] using h2
  · exact Nat.le_trans
      (Nat.le_trans (Nat.le_add_right _ _) (Nat.le_add_right _ _)) h3

/-- Witness for C1's amended theorem at a concrete interleaving. -/
theorem c1_single_finalize_witness :
    ([Ev.manual, Ev.callback, Ev.timeout, Ev.extDisc].count Ev.manual = 1 ∧
     [Ev.manual, Ev.callback, Ev.timeout, Ev.extDisc].count Ev.timeout = 1 ∧
     [Ev.manual, Ev.callback, Ev.timeout, Ev.extDisc].count Ev.extDisc = 1) ∧
    ((drainCb [(1, 5)] extAllOk
        (runTrace [(1, 5)] extAllOk
          [Ev.manual, Ev.callback, Ev.timeout, Ev.extDisc] activeSt)).releases = 1 ∧
     (drainCb [(1, 5)] extAllOk
        (runTrace [(1, 5)] extAllOk
          [Ev.manual, Ev.callback, Ev.timeout, Ev.extDisc] activeSt)).removals = 1 ∧
     (drainCb [(1, 5)] extAllOk
        (runTrace [(1, 5)] extAllOk
          [Ev.manual, Ev.callback, Ev.timeout, Ev.extDisc] activeSt)).finalizeRuns ≤ 1) :=
  ⟨by decide,
   c1_single_finalize [(1, 5)] extAllOk
     [Ev.manual, Ev.callback, Ev.timeout, Ev.extDisc]
     (by decide) (by decide) (by decide)⟩

/-- C3: whatever exceptions the drain/persist/notify steps of the finished
callback raise (any pattern of failing Discord sends/edits, any sink
contents, a missing meeting record included), and whatever error values
the store calls return, cleanup still completes: starting from a
registered, connected session with the callback pending, the callback
always deregisters the tenant (no phantom registry entry) and releases the
voice connection, each exactly once. -/
theorem c3_cleanup_on_failure (sink : List (Nat × Nat)) (x : Ext) (s : St)
    (hcb : s.callbackScheduled = true) (hreg : s.inConnections = true)
    (hc : s.connected = true) :
    (runCallback sink x s).inConnections = false ∧
    (runCallback sink x s).connected = false ∧
    (runCallback sink x s).disconnectCalls = s.disconnectCalls + 1 ∧
    (runCallback sink x s).removals = s.removals + 1 := by
  unfold runCallback
  rw [if_neg (by simp [hcb])]
  dsimp only
  rw [if_neg (by simp [hreg])]
  obtain ⟨g1, g2, g3, g4⟩ :=
    finalizeBody_cleans sink x
      (s := { cancelTask { s with callbackScheduled := false } with
        finalizeRuns :=
          (cancelTask { s with callbackScheduled := false }).finalizeRuns + 1 })
      (by simp [hreg]) (by simp [hc])
  refine ⟨g1, g2, ?_, ?_⟩
  · rw [g3]
    simp
  · rw [g4]
    simp

/-- Witness for C3 with a genuine exception: the Processing-embed send
raises while one non-empty buffer exists. -/
theorem c3_cleanup_on_failure_witness :
    (stoppedSt.callbackScheduled = true ∧
     stoppedSt.inConnections = true ∧
     stoppedSt.connected = true) ∧
    ((runCallback [(7, 3)] extProcFail stoppedSt).inConnections = false ∧
     (runCallback [(7, 3)] extProcFail stoppedSt).connected = false ∧
     (runCallback [(7, 3)] extProcFail stoppedSt).disconnectCalls =
       stoppedSt.disconnectCalls + 1 ∧
     (runCallback [(7, 3)] extProcFail stoppedSt).removals =
       stoppedSt.removals + 1) :=
  ⟨by decide,
   c3_cleanup_on_failure [(7, 3)] extProcFail stoppedSt
     (by decide) (by decide) (by decide)⟩

/-- C4 (counterexample): the external-disconnect path is NOT the same
finalize path as a manual stop.  From an active session with one non-empty
captured buffer, handling the external disconnect performs zero blob-store
calls, zero meeting updates and zero finalize-body runs (the audio is
dropped), while the manual-stop path on the same state persists the buffer
(one blob call, one meeting update, one finalize run). -/
theorem c4_counterexample :
    ((drainCb [(1, 5)] extAllOk
        (runTrace [(1, 5)] extAllOk [Ev.extDisc] activeSt)).blobCalls = 0 ∧
     (drainCb [(1, 5)] extAllOk
        (runTrace [(1, 5)] extAllOk [Ev.extDisc] activeSt)).updateCalls = 0 ∧
     (drainCb [(1, 5)] extAllOk
        (runTrace [(1, 5)] extAllOk [Ev.extDisc] activeSt)).finalizeRuns = 0) ∧
    ((drainCb [(1, 5)] extAllOk
        (runTrace [(1, 5)] extAllOk [Ev.manual] activeSt)).blobCalls = 1 ∧
     (drainCb [(1, 5)] extAllOk
        (runTrace [(1, 5)] extAllOk [Ev.manual] activeSt)).updateCalls = 1 ∧
     (drainCb [(1, 5)] extAllOk
        (runTrace [(1, 5)] extAllOk [Ev.manual] activeSt)).finalizeRuns = 1) := by
  decide

/-- C4 (amended): on an external disconnect of an active session the
listener only cleans up — it cancels the timer, removes the registry
entry and observes the connection release — but it never drives the
drain/persist/notify pipeline: no audio captured before the drop is
persisted, no meeting update or deletion happens, and the finalize body
runs zero times, for every sink content and every external-call outcome. -/
theorem c4_ext_disconnect_only_cleans (sink : List (Nat × Nat)) (x : Ext) :
    (drainCb sink x (step sink x Ev.extDisc activeSt)).finalizeRuns = 0 ∧
    (drainCb sink x (step sink x Ev.extDisc activeSt)).blobCalls = 0 ∧
    (drainCb sink x (step sink x Ev.extDisc activeSt)).updateCalls = 0 ∧
    (drainCb sink x (step sink x Ev.extDisc activeSt)).deleteCalls = 0 ∧
    (drainCb sink x (step sink x Ev.extDisc activeSt)).removals = 1 ∧
    (drainCb sink x (step sink x Ev.extDisc activeSt)).releases = 1 ∧
    (drainCb sink x (step sink x Ev.extDisc activeSt)).inConnections = false :=
  ⟨rfl, rfl, rfl, rfl, rfl, rfl, rfl⟩

/-- When every buffer in the sink is empty the per-user loop creates no
blob calls and records no users. -/
theorem processUsers_all_empty {sink : List (Nat × Nat)}
    (h : ∀ p ∈ sink, p.2 = 0) : processUsers sink = (0, []) := by
  induction sink with
  | nil => rfl
  | cons p rest ih =>
    obtain ⟨u, sz⟩ := p
    have hz : sz = 0 := h (u, sz) (by simp)
    subst hz
    unfold processUsers
    dsimp only
    rw [if_neg (by simp)]
    exact ih fun q hq => h q (List.mem_cons_of_mem _ hq)

/-- C5 (counterexample): a finalize run that produced zero NON-EMPTY audio
buffers does not always delete the meeting record.  With one user whose
buffer is empty (audio_data non-empty, all sizes zero) the callback takes
the no-valid-files branch: a notification is sent and no blob or
meeting-update calls are made, but `delete_meeting` is never called — the
meeting record created at start is left in the store. -/
theorem c5_counterexample :
    (runCallback [(42, 0)] extAllOk stoppedSt).deleteCalls = 0 ∧
    (runCallback [(42, 0)] extAllOk stoppedSt).sentNoValidMsg = true ∧
    (runCallback [(42, 0)] extAllOk stoppedSt).blobCalls = 0 ∧
    (runCallback [(42, 0)] extAllOk stoppedSt).updateCalls = 0 := by
  decide

/-- C5 (amended): on a finalize run of a registered session (meeting
record present, notification sends succeeding), if the sink captured no
buffers at all then the no-audio notification is published, the meeting
record is deleted, and no blob-store or meeting-update calls are made;
but if buffers exist and all are empty, the no-valid-files notification
is published with no blob-store or meeting-update calls and the meeting
record is NOT deleted. -/
theorem c5_zero_audio (x : Ext) (s : St) (sink : List (Nat × Nat))
    (hcb : s.callbackScheduled = true) (hreg : s.inConnections = true)
    (hmp : s.meetingPresent = true) (hna : x.sendNoAudioOk = true)
    (hnv : x.sendNoValidOk = true) :
    (sink = [] →
      (runCallback sink x s).deleteCalls = s.deleteCalls + 1 ∧
      (runCallback sink x s).sentNoAudioMsg = true ∧
      (runCallback sink x s).blobCalls = s.blobCalls ∧
      (runCallback sink x s).updateCalls = s.updateCalls) ∧
    (sink ≠ [] → (∀ p ∈ sink, p.2 = 0) →
      (runCallback sink x s).deleteCalls = s.deleteCalls ∧
      (runCallback sink x s).sentNoValidMsg = true ∧
      (runCallback sink x s).blobCalls = s.blobCalls ∧
      (runCallback sink x s).updateCalls = s.updateCalls) := by
  constructor
  · intro hs
    subst hs
    unfold runCallback
    rw [if_neg (by simp [hcb])]
    dsimp only
    rw [if_neg (by simp [hreg])]
    unfold finalizeBody
    rw [if_pos rfl]
    rw [if_neg (by simp [hna])]
    rw [if_neg (by simp [hmp])]
    refine ⟨?_, ?_, ?_, ?_⟩ <;> simp [noAudioSt]
  · intro hne hz
    unfold runCallback
    rw [if_neg (by simp [hcb])]
    dsimp only
    rw [if_neg (by simp [hreg])]
    unfold finalizeBody
    rw [if_neg hne]
    rw [processUsers_all_empty hz]
    rw [if_neg (by simp)]
    rw [if_neg (by simp [hnv])]
    refine ⟨?_, ?_, ?_, ?_⟩ <;>
      simp [blobSt, processUsers_all_empty hz]

/-- Witness for C5's amended theorem: both the empty-sink path and the
all-empty-buffers path at concrete inputs. -/
theorem c5_zero_audio_witness :
    (stoppedSt.callbackScheduled = true ∧ stoppedSt.inConnections = true ∧
     stoppedSt.meetingPresent = true ∧ extAllOk.sendNoAudioOk = true ∧
     extAllOk.sendNoValidOk = true) ∧
    (([] : List (Nat × Nat)) = [] →
      (runCallback [] extAllOk stoppedSt).deleteCalls =
        stoppedSt.deleteCalls + 1 ∧
      (runCallback [] extAllOk stoppedSt).sentNoAudioMsg = true ∧
      (runCallback [] extAllOk stoppedSt).blobCalls = stoppedSt.blobCalls ∧
      (runCallback [] extAllOk stoppedSt).updateCalls = stoppedSt.updateCalls) :=
  ⟨⟨by decide, by decide, by decide, by decide, by decide⟩,
   (c5_zero_audio extAllOk stoppedSt [] (by decide) (by decide) (by decide)
     (by decide) (by decide)).1⟩

/-- C6 (counterexample): a failed `/join` does NOT always leave the
registry without an entry.  When `vc.start_recording` raises after the
line-95 insert and the except branch's own error-embed send (line 145)
also raises, the `_cleanup_recording` call at line 147 is never reached:
the failed start leaves a phantom registry entry for the tenant. -/
theorem c6_counterexample :
    (join true true JFault.startRecFail false idleSt).2 = JoinRes.failed ∧
    ((join true true JFault.startRecFail false idleSt).1).inConnections
      = true := by
  decide

/-- C6 (amended): a failing `/join` leaves the registry without an entry
for the tenant whenever the failure precedes the line-95 insert
(connection timeout, connection error, status-message send failure — with
or without a working error notification), and also for post-insert
failures as long as the except branch's error-embed send succeeds so that
`_cleanup_recording` at line 147 runs; only a post-insert failure whose
error notification also raises skips the rollback. -/
theorem c6_failed_start_rollback (mOk : Bool) (f : JFault) (errSendOk : Bool)
    (s : St) (hreg : s.inConnections = false) (hf : f ≠ JFault.ok) :
    (join true mOk f errSendOk s).2 = JoinRes.failed ∧
    (errSendOk = true →
      ((join true mOk f errSendOk s).1).inConnections = false) ∧
    (f ≠ JFault.startRecFail →
      ((join true mOk f errSendOk s).1).inConnections = false) := by
  unfold join
  rw [if_neg (by simp)]
  rw [if_neg (by simp [hreg])]
  cases f
  · exact absurd rfl hf
  · exact ⟨rfl, fun _ => hreg, fun _ => hreg⟩
  · refine ⟨rfl, ?_, ?_⟩ <;> intro h <;> cases hE : errSendOk
    · simp [hE] at h
    · exact cleanup_not_registered _
    · exact hreg
    · exact cleanup_not_registered _
  · refine ⟨rfl, ?_, ?_⟩ <;> intro h <;> cases hE : errSendOk
    · simp [hE] at h
    · exact cleanup_not_registered _
    · exact hreg
    · exact cleanup_not_registered _
  · refine ⟨rfl, ?_, ?_⟩
    · intro h
      cases hE : errSendOk
      · simp [hE] at h
      · exact cleanup_not_registered _
    · intro h
      exact absurd rfl h

/-- Witness for C6's amended theorem: start_recording fails after the
insert, the error notification succeeds, and the entry is rolled back. -/
theorem c6_failed_start_rollback_witness :
    (idleSt.inConnections = false ∧ JFault.startRecFail ≠ JFault.ok ∧
     (true : Bool) = true) ∧
    ((join true true JFault.startRecFail true idleSt).2 = JoinRes.failed ∧
     ((join true true JFault.startRecFail true idleSt).1).inConnections
       = false) :=
  ⟨⟨by decide, by decide, rfl⟩,
   ⟨(c6_failed_start_rollback true JFault.startRecFail true idleSt
       (by decide) (by decide)).1,
    (c6_failed_start_rollback true JFault.startRecFail true idleSt
       (by decide) (by decide)).2.1 rfl⟩⟩

/-- C7: once the pending finished callback has run, the tenant's registry
entry is gone (finalize completes and removes it), and a subsequent
successful `/join` for the same tenant is accepted and re-registers the
tenant — the registry no longer blocks it. -/
theorem c7_restart_after_finalize (sink : List (Nat × Nat)) (x : Ext)
    (mOk e : Bool) (s : St) (hcb : s.callbackScheduled = true) :
    (runCallback sink x s).inConnections = false ∧
    (join true mOk JFault.ok e (runCallback sink x s)).2 = JoinRes.started ∧
    ((join true mOk JFault.ok e (runCallback sink x s)).1).inConnections
      = true := by
  have hun : (runCallback sink x s).inConnections = false := by
    unfold runCallback
    rw [if_neg (by simp [hcb])]
    dsimp only
    by_cases hreg :
        (cancelTask { s with callbackScheduled := false }).inConnections = false
    · rw [if_pos hreg]
      exact cleanup_not_registered _
    · rw [if_neg hreg]
      exact finalizeBody_unreg _ _ _
  refine ⟨hun, ?_, ?_⟩
  · unfold join
    rw [if_neg (by simp)]
    rw [if_neg (by simp [hun])]
  · unfold join
    rw [if_neg (by simp)]
    rw [if_neg (by simp [hun])]

/-- Witness for C7: stop, finalize with one buffer, then re-join. -/
theorem c7_restart_after_finalize_witness :
    stoppedSt.callbackScheduled = true ∧
    ((runCallback [(1, 5)] extAllOk stoppedSt).inConnections = false ∧
     (join true true JFault.ok true
        (runCallback [(1, 5)] extAllOk stoppedSt)).2 = JoinRes.started ∧
     ((join true true JFault.ok true
        (runCallback [(1, 5)] extAllOk stoppedSt)).1).inConnections = true) :=
  ⟨by decide,
   c7_restart_after_finalize [(1, 5)] extAllOk true true stoppedSt (by decide)⟩

/-- C8: cancelling the session timer is idempotent and never re-triggers
finalize.  `Task.cancel` is total (asyncio never raises there, and the
cog guards every cancel with a dict-membership test): cancelling twice
equals cancelling once; a cancel never touches the recording flag, the
pending callback or the finalize count; and in the fired-timer scenario
(timer fires, finalize runs once, then a cancel arrives) the cancel is a
no-op and no second finalize can occur even if the fire raced the
cancel. -/
theorem c8_cancel_idempotent :
    (∀ s : St, cancelTask (cancelTask s) = cancelTask s) ∧
    (∀ s : St, (cancelTask s).finalizeRuns = s.finalizeRuns ∧
      (cancelTask s).callbackScheduled = s.callbackScheduled ∧
      (cancelTask s).recording = s.recording) ∧
    cancelTask (drainCb [(1, 5)] extAllOk (timeoutFire activeSt)) =
      drainCb [(1, 5)] extAllOk (timeoutFire activeSt) ∧
    (drainCb [(1, 5)] extAllOk (timeoutFire activeSt)).finalizeRuns = 1 ∧
    (drainCb [(1, 5)] extAllOk
      (timeoutFire (cancelTask (drainCb [(1, 5)] extAllOk
        (timeoutFire activeSt))))).finalizeRuns = 1 := by
  refine ⟨?_, ?_, by decide, by decide, by decide⟩
  · intro s
    unfold cancelTask
    by_cases h : s.inTasks = true
    · rw [if_pos h]
      rw [if_neg (by simp)]
    · rw [if_neg h, if_neg h]
  · intro s
    exact ⟨cancelTask_finalizeRuns s, cancelTask_callbackScheduled s,
      cancelTask_recording s⟩

set_option maxRecDepth 4000 in
theorem invRace2_init : InvRace2 race2Init := by decide

set_option maxRecDepth 4000 in
theorem invRace2_step_c : ∀ (w es vc rg : Bool) (p1 : TPc) (r1 : TRes)
    (p2 : TPc) (r2 : TRes),
    InvRace2 ⟨vc, rg, p1, r1, p2, r2⟩ →
    InvRace2 (raceStep2 w es ⟨vc, rg, p1, r1, p2, r2⟩) := by
  decide

theorem invRace2_step (w es : Bool) (s : Race2) (h : InvRace2 s) :
    InvRace2 (raceStep2 w es s) := by
  obtain ⟨vc, rg, p1, r1, p2, r2⟩ := s
  exact invRace2_step_c w es vc rg p1 r1 p2 r2 h

theorem invRace2_run (sched : List (Bool × Bool)) (s : Race2)
    (h : InvRace2 s) : InvRace2 (runRace2 sched s) := by
  induction sched generalizing s with
  | nil => exact h
  | cons p t ih => exact ih _ (invRace2_step p.1 p.2 s h)

set_option maxRecDepth 4000 in
theorem invRace2_started_c : ∀ (vc rg : Bool) (p1 : TPc) (r1 : TRes)
    (p2 : TPc) (r2 : TRes),
    InvRace2 ⟨vc, rg, p1, r1, p2, r2⟩ →
    startedCount ⟨vc, rg, p1, r1, p2, r2⟩ ≤ 1 := by
  decide

theorem invRace2_started (s : Race2) (h : InvRace2 s) :
    startedCount s ≤ 1 := by
  obtain ⟨vc, rg, p1, r1, p2, r2⟩ := s
  exact invRace2_started_c vc rg p1 r1 p2 r2 h

set_option maxRecDepth 4000 in
theorem invRace2_done_c : ∀ (vc rg : Bool) (p1 : TPc) (r1 : TRes)
    (p2 : TPc) (r2 : TRes),
    InvRace2 ⟨vc, rg, p1, r1, p2, r2⟩ → p1 = TPc.done → p2 = TPc.done →
    startedCount ⟨vc, rg, p1, r1, p2, r2⟩ = 1 ∧
    (r1 = TRes.started → r2 = TRes.failed ∨ r2 = TRes.alreadyActive) ∧
    (r2 = TRes.started → r1 = TRes.failed ∨ r1 = TRes.alreadyActive) := by
  decide

theorem invRace2_done (s : Race2) (h : InvRace2 s) (h1 : s.pc1 = TPc.done)
    (h2 : s.pc2 = TPc.done) :
    startedCount s = 1 ∧
    (s.res1 = TRes.started →
      s.res2 = TRes.failed ∨ s.res2 = TRes.alreadyActive) ∧
    (s.res2 = TRes.started →
      s.res1 = TRes.failed ∨ s.res1 = TRes.alreadyActive) := by
  obtain ⟨vc, rg, p1, r1, p2, r2⟩ := s
  exact invRace2_done_c vc rg p1 r1 p2 r2 h h1 h2

set_option maxRecDepth 4000 in
theorem started_step_c : ∀ (w es vc rg : Bool) (p1 : TPc) (r1 : TRes)
    (p2 : TPc) (r2 : TRes),
    InvRace2 ⟨vc, rg, p1, r1, p2, r2⟩ →
    startedCount (raceStep2 w es ⟨vc, rg, p1, r1, p2, r2⟩) =
      startedCount ⟨vc, rg, p1, r1, p2, r2⟩ +
        stepInsert w ⟨vc, rg, p1, r1, p2, r2⟩ := by
  decide

theorem started_step (w es : Bool) (s : Race2) (h : InvRace2 s) :
    startedCount (raceStep2 w es s) = startedCount s + stepInsert w s := by
  obtain ⟨vc, rg, p1, r1, p2, r2⟩ := s
  exact started_step_c w es vc rg p1 r1 p2 r2 h

/-- A schedule performs as many line-95 inserts as calls it brings to
success. -/
theorem startedCount_run (sched : List (Bool × Bool)) (s : Race2)
    (h : InvRace2 s) :
    startedCount (runRace2 sched s) = startedCount s + countInserts sched s := by
  induction sched generalizing s with
  | nil => simp [runRace2, countInserts]
  | cons p t ih =>
    have hstep := started_step p.1 p.2 s h
    have hrec := ih (raceStep2 p.1 p.2 s) (invRace2_step p.1 p.2 s h)
    show startedCount (runRace2 t (raceStep2 p.1 p.2 s)) =
      startedCount s + (stepInsert p.1 s + countInserts t (raceStep2 p.1 p.2 s))
    rw [hrec, hstep]
    omega

/-- C2 (counterexample): two overlapping `/join` calls do NOT yield one
success and one AlreadyActive.  In the fully overlapped schedule both
calls pass the line-60 membership check; the first wins the voice
transport's synchronous already-connected guard and starts, while the
second call's `connect` raises `ClientException`, so it fails with the
generic Recording Failed — not AlreadyActive — and its except-branch
`_cleanup_recording` even deletes the winner's freshly inserted registry
entry. -/
theorem c2_counterexample :
    (runRace2 [(true, true), (false, true), (true, true), (true, true),
        (false, true), (false, true)] race2Init).res1 = TRes.started ∧
    (runRace2 [(true, true), (false, true), (true, true), (true, true),
        (false, true), (false, true)] race2Init).res2 = TRes.failed ∧
    ¬(runRace2 [(true, true), (false, true), (true, true), (true, true),
        (false, true), (false, true)] race2Init).res2 = TRes.alreadyActive ∧
    (runRace2 [(true, true), (false, true), (true, true), (true, true),
        (false, true), (false, true)] race2Init).reg = false := by
  decide

/-- C2 (amended): the cog's check-and-insert is not atomic, but py-cord's
`connect` holds a synchronous already-connected guard, so two overlapping
`/join` calls never both succeed and never insert twice: over every
schedule at most one call reports success and at most one line-95 insert
occurs, and when both calls complete exactly one succeeds while the other
gets either the generic Recording Failed (overlapped: its `connect`
raised `ClientException`) or Already Recording (serialized: the line-60
check saw the winner's entry) — the serialized schedule below shows the
AlreadyActive outcome. -/
theorem c2_overlapping_starts :
    (∀ sched : List (Bool × Bool),
      ¬((runRace2 sched race2Init).res1 = TRes.started ∧
        (runRace2 sched race2Init).res2 = TRes.started)) ∧
    (∀ sched : List (Bool × Bool), countInserts sched race2Init ≤ 1) ∧
    (∀ sched : List (Bool × Bool),
      (runRace2 sched race2Init).pc1 = TPc.done →
      (runRace2 sched race2Init).pc2 = TPc.done →
      startedCount (runRace2 sched race2Init) = 1 ∧
      ((runRace2 sched race2Init).res1 = TRes.started →
        (runRace2 sched race2Init).res2 = TRes.failed ∨
        (runRace2 sched race2Init).res2 = TRes.alreadyActive) ∧
      ((runRace2 sched race2Init).res2 = TRes.started →
        (runRace2 sched race2Init).res1 = TRes.failed ∨
        (runRace2 sched race2Init).res1 = TRes.alreadyActive)) ∧
    ((runRace2 [(true, true), (true, true), (true, true), (false, true)]
        race2Init).res1 = TRes.started ∧
     (runRace2 [(true, true), (true, true), (true, true), (false, true)]
        race2Init).res2 = TRes.alreadyActive) := by
  refine ⟨?_, ?_, ?_, by decide⟩
  · intro sched hb
    have h := invRace2_started _ (invRace2_run sched _ invRace2_init)
    rw [startedCount, hb.1, hb.2] at h
    simp at h
  · intro sched
    have h := startedCount_run sched race2Init invRace2_init
    have h2 := invRace2_started _ (invRace2_run sched _ invRace2_init)
    have h0 : startedCount race2Init = 0 := rfl
    omega
  · intro sched h1 h2
    exact invRace2_done _ (invRace2_run sched _ invRace2_init) h1 h2

/-- Witness for C2's amended theorem at the completed overlapped
schedule. -/
theorem c2_overlapping_starts_witness :
    ((runRace2 [(true, true), (false, true), (true, true), (true, true),
        (false, true), (false, true)] race2Init).pc1 = TPc.done ∧
     (runRace2 [(true, true), (false, true), (true, true), (true, true),
        (false, true), (false, true)] race2Init).pc2 = TPc.done) ∧
    startedCount (runRace2 [(true, true), (false, true), (true, true),
      (true, true), (false, true), (false, true)] race2Init) = 1 :=
  ⟨⟨by decide, by decide⟩,
   (c2_overlapping_starts.2.2.1
     [(true, true), (false, true), (true, true), (true, true),
      (false, true), (false, true)] (by decide) (by decide)).1⟩

theorem tickLoop_fst (publishOk : Nat → Bool) (l : List (Nat × AltConn)) :
    (tickLoop publishOk l).map Prod.fst =
      (l.filter fun p => p.2.hasStatusMessage).map Prod.fst := by
  induction l with
  | nil => rfl
  | cons p rest ih =>
    unfold tickLoop
    by_cases h : p.2.hasStatusMessage = true
    · rw [if_pos h]
      simp [List.filter_cons, h, ih]
    · rw [if_neg h]
      simp only [Bool.not_eq_true] at h
      simp [List.filter_cons, h, ih]

theorem tickLoop_mem_fst {publishOk : Nat → Bool} {l : List (Nat × AltConn)}
    {g : Nat} {b : Bool} (hm : (g, b) ∈ tickLoop publishOk l) :
    g ∈ l.map Prod.fst := by
  have h1 : g ∈ (tickLoop publishOk l).map Prod.fst :=
    List.mem_map_of_mem Prod.fst hm
  rw [tickLoop_fst] at h1
  obtain ⟨p, hp, hpg⟩ := List.mem_map.mp h1
  exact List.mem_map.mpr ⟨p, List.mem_of_mem_filter hp, hpg⟩

/-- C9: the status reporter is frame-preserving and stale-free.  (i) A
tick never changes the registry or any session entry, whatever pattern of
edit failures occurs.  (ii) The set of guilds a tick edits is exactly the
guilds with a status message in the CURRENT registry, independent of
which edits fail — a single failed edit is skipped and later guilds are
still edited.  (iii) A tenant absent from the current registry is never
edited (no stale reference keeps it ticking).  (iv) Every scheduled tick
runs: per-guild failures never terminate the recurring task. -/
theorem c9_status_reporter :
    (∀ (publishOk : Nat → Bool) (conns : List (Nat × AltConn)),
      (statusTick publishOk conns).1 = conns) ∧
    (∀ (publishOk : Nat → Bool) (conns : List (Nat × AltConn)),
      ((statusTick publishOk conns).2).map Prod.fst =
        (conns.filter fun p => p.2.hasStatusMessage).map Prod.fst) ∧
    (∀ (publishOk : Nat → Bool) (conns : List (Nat × AltConn))
      (g : Nat) (b : Bool), g ∉ conns.map Prod.fst →
        (g, b) ∉ (statusTick publishOk conns).2) ∧
    (∀ sched : List ((Nat → Bool) × List (Nat × AltConn)),
      (runStatusTicks sched).length = sched.length) := by
  refine ⟨fun _ _ => rfl, fun p c => tickLoop_fst p c, ?_, ?_⟩
  · intro publishOk conns g b hg hm
    exact hg (tickLoop_mem_fst hm)
  · intro sched
    induction sched with
    | nil => rfl
    | cons t rest ih => simp [runStatusTicks, ih]

/-- Witness for C9 part (iii): guild 5 is not in the registry and is not
edited. -/
theorem c9_status_reporter_witness :
    (5 ∉ ([(1, ⟨true, 0⟩)] : List (Nat × AltConn)).map Prod.fst) ∧
    ((5, true) ∉ (statusTick (fun _ => false) [(1, ⟨true, 0⟩)]).2) :=
  ⟨by decide,
   c9_status_reporter.2.2.1 (fun _ => false) [(1, ⟨true, 0⟩)] 5 true
     (by decide)⟩

theorem digitVal_digitChar : ∀ k, k < 10 → digitVal (digitChar k) = k := by
  decide

theorem isDigitCh_digitChar : ∀ k, k < 10 → isDigitCh (digitChar k) = true := by
  decide

theorem isDigitCh_digitChar_mod (k : Nat) :
    isDigitCh (digitChar (k % 10)) = true :=
  isDigitCh_digitChar _ (Nat.mod_lt _ (by norm_num))

theorem num2_pads (n : Nat) (h : n < 100) :
    num2 (digitChar (n / 10 % 10)) (digitChar (n % 10)) = n := by
  unfold num2
  rw [digitVal_digitChar _ (Nat.mod_lt _ (by norm_num)),
      digitVal_digitChar _ (Nat.mod_lt _ (by norm_num))]
  omega

theorem num4_pads (n : Nat) (h : n < 10000) :
    num4 (digitChar (n / 1000 % 10)) (digitChar (n / 100 % 10))
      (digitChar (n / 10 % 10)) (digitChar (n % 10)) = n := by
  unfold num4
  rw [digitVal_digitChar _ (Nat.mod_lt _ (by norm_num)),
      digitVal_digitChar _ (Nat.mod_lt _ (by norm_num)),
      digitVal_digitChar _ (Nat.mod_lt _ (by norm_num)),
      digitVal_digitChar _ (Nat.mod_lt _ (by norm_num))]
  omega

theorem num6_pads (n : Nat) (h : n < 1000000) :
    num6 (digitChar (n / 100000 % 10)) (digitChar (n / 10000 % 10))
      (digitChar (n / 1000 % 10)) (digitChar (n / 100 % 10))
      (digitChar (n / 10 % 10)) (digitChar (n % 10)) = n := by
  unfold num6
  rw [digitVal_digitChar _ (Nat.mod_lt _ (by norm_num)),
      digitVal_digitChar _ (Nat.mod_lt _ (by norm_num)),
      digitVal_digitChar _ (Nat.mod_lt _ (by norm_num)),
      digitVal_digitChar _ (Nat.mod_lt _ (by norm_num)),
      digitVal_digitChar _ (Nat.mod_lt _ (by norm_num)),
      digitVal_digitChar _ (Nat.mod_lt _ (by norm_num))]
  omega

/-- ISO round trip for datetimes in range. -/
theorem fromisoformat_isoformat (d : DateTime) (h : d.validRange) :
    DateTime.fromisoformat d.isoformat = some d := by
  obtain ⟨y, mo, da, ho, mi, se, mic⟩ := d
  obtain ⟨hy1, hy2, hm1, hm2, hd1, hd2, hh, hmin, hs, hmic⟩ := h
  simp only [DateTime.isoformat, pad4, pad2, pad6] at *
  by_cases hm0 : mic = 0
  · rw [if_pos hm0]
    show DateTime.fromisoformat
      [digitChar (y / 1000 % 10), digitChar (y / 100 % 10),
       digitChar (y / 10 % 10), digitChar (y % 10), '-',
       digitChar (mo / 10 % 10), digitChar (mo % 10), '-',
       digitChar (da / 10 % 10), digitChar (da % 10), 'T',
       digitChar (ho / 10 % 10), digitChar (ho % 10), ':',
       digitChar (mi / 10 % 10), digitChar (mi % 10), ':',
       digitChar (se / 10 % 10), digitChar (se % 10)] = _
    simp only [DateTime.fromisoformat]
    unfold parseDT
    rw [if_pos]
    · rw [num4_pads y (by omega), num2_pads mo (by omega),
          num2_pads da (by omega), num2_pads ho (by omega),
          num2_pads mi (by omega), num2_pads se (by omega), hm0]
    · refine ⟨rfl, rfl, rfl, rfl, rfl, ?_, ?_, ?_, ?_, ?_, ?_, ?_, ?_, ?_⟩
      all_goals
        first
          | (simp [allDigits, isDigitCh_digitChar_mod])
          | (rw [num4_pads y (by omega)]; omega)
          | (rw [num2_pads mo (by omega)]; omega)
          | (rw [num2_pads da (by omega)]; omega)
          | (rw [num2_pads ho (by omega)]; omega)
          | (rw [num2_pads mi (by omega)]; omega)
          | (rw [num2_pads se (by omega)]; omega)
  · rw [if_neg hm0]
    show DateTime.fromisoformat
      [digitChar (y / 1000 % 10), digitChar (y / 100 % 10),
       digitChar (y / 10 % 10), digitChar (y % 10), '-',
       digitChar (mo / 10 % 10), digitChar (mo % 10), '-',
       digitChar (da / 10 % 10), digitChar (da % 10), 'T',
       digitChar (ho / 10 % 10), digitChar (ho % 10), ':',
       digitChar (mi / 10 % 10), digitChar (mi % 10), ':',
       digitChar (se / 10 % 10), digitChar (se % 10), '.',
       digitChar (mic / 100000 % 10), digitChar (mic / 10000 % 10),
       digitChar (mic / 1000 % 10), digitChar (mic / 100 % 10),
       digitChar (mic / 10 % 10), digitChar (mic % 10)] = _
    simp only [DateTime.fromisoformat]
    rw [if_pos (by exact ⟨trivial, by simp [allDigits, isDigitCh_digitChar_mod]⟩)]
    unfold parseDT
    rw [if_pos]
    · rw [num4_pads y (by omega), num2_pads mo (by omega),
          num2_pads da (by omega), num2_pads ho (by omega),
          num2_pads mi (by omega), num2_pads se (by omega),
          num6_pads mic (by omega)]
    · refine ⟨rfl, rfl, rfl, rfl, rfl, ?_, ?_, ?_, ?_, ?_, ?_, ?_, ?_, ?_⟩
      all_goals
        first
          | (simp [allDigits, isDigitCh_digitChar_mod])
          | (rw [num4_pads y (by omega)]; omega)
          | (rw [num2_pads mo (by omega)]; omega)
          | (rw [num2_pads da (by omega)]; omega)
          | (rw [num2_pads ho (by omega)]; omega)
          | (rw [num2_pads mi (by omega)]; omega)
          | (rw [num2_pads se (by omega)]; omega)

/-- C10: `to_dict`/`from_dict` round trip.  (i) For every Meeting whose
datetimes are in range, serializing with `to_dict` and then deserializing
after restoring the always-omitted `id` key yields an equal Meeting: the
datetime fields survive the trip through their ISO strings.  (ii) When the
`participants`/`recordings` keys are absent from the input dict,
`from_dict` defaults both to empty lists. -/
theorem c10_round_trip (m : Meeting) (h1 : m.start.validRange)
    (h2 : ∀ e, m.endTime = some e → e.validRange) :
    Meeting.from_dict (m.to_dict ++ [(MKey.id, optStr m.id)]) = some m ∧
    (∀ (ci gi : Int) (st : DateTime), st.validRange →
      Meeting.from_dict
          [(MKey.channel_id, DVal.vint ci), (MKey.guild_id, DVal.vint gi),
           (MKey.start, DVal.vstr st.isoformat)] =
        some ⟨ci, gi, st, none, none, [], [], none, none⟩) := by
  constructor
  · obtain ⟨ci, gi, st, ml, en, pa, re, tr, mi⟩ := m
    have hst : DateTime.fromisoformat st.isoformat = some st :=
      fromisoformat_isoformat st h1
    cases hen : en with
    | none =>
      cases ml <;> cases tr <;> cases mi <;>
        simp [Meeting.to_dict, Meeting.from_dict, lookupD, optStr, optLog,
          optEnd, hst]
    | some e =>
      have hste : DateTime.fromisoformat e.isoformat = some e :=
        fromisoformat_isoformat e (h2 e hen)
      cases ml <;> cases tr <;> cases mi <;>
        simp [Meeting.to_dict, Meeting.from_dict, lookupD, optStr, optLog,
          optEnd, hst, hste]
  · intro ci gi st hstv
    have hst : DateTime.fromisoformat st.isoformat = some st :=
      fromisoformat_isoformat st hstv
    simp [Meeting.from_dict, lookupD, hst]

/-- Witness for C10 at the concrete meeting `m0`. -/
theorem c10_round_trip_witness :
    (m0.start.validRange ∧ (∀ e, m0.endTime = some e → e.validRange)) ∧
    Meeting.from_dict (m0.to_dict ++ [(MKey.id, optStr m0.id)]) = some m0 :=
  ⟨⟨by decide,
    by
      intro e he
      rw [show m0.endTime = some dt1 from rfl] at he
      injection he with hh
      rw [← hh]
      decide⟩,
   (c10_round_trip m0 (by decide)
     (by
       intro e he
       rw [show m0.endTime = some dt1 from rfl] at he
       injection he with hh
       rw [← hh]
       decide)).1⟩

end Steve
